import Mathlib

/-
Verification of the transcript reconciliation engine and session controller of
the dictation utility (dictation.py). Python strings are modelled as Lean
strings; string primitives used by the code (len, slicing, startswith, strip)
are modelled over the character data of the string, matching the code-point
semantics of Python strings.
-/

/-- Python len(s): the number of code points of s. -/
def pyLen (s : String) : Nat := s.data.length

/-- Python slice s[n:]: drop the first n code points. -/
def pyDrop (s : String) (n : Nat) : String := ⟨s.data.drop n⟩

/-- Remove n trailing code points of s, the effect of the delete count of a
reconciliation edit on displayed text. -/
def pyDropRight (s : String) (n : Nat) : String := ⟨s.data.take (s.data.length - n)⟩

/-- Python s.startswith(p): p is a literal leading substring of s. -/
def pyStartswith (s p : String) : Bool := p.data.isPrefixOf s.data

/-- Python s.strip(): remove leading and trailing whitespace. -/
def pyStrip (s : String) : String :=
  ⟨((s.data.dropWhile Char.isWhitespace).reverse.dropWhile Char.isWhitespace).reverse⟩

/-- The edit emitted by the reconciliation engine: delete this many trailing
code points of the displayed text, then append the insert text. -/
structure ReconciliationResult where
  deleteCount : Nat
  insertText : String
deriving DecidableEq, Repr

/-- The reconciliation computation of the streaming branch of
on_partial_transcript (dictation.py lines 275 to 291), as a pure function of
the displayed text and the newly reported text. The code first tests
inequality with the last partial text, then the startswith fast path, and
otherwise deletes everything displayed and retypes the new text. -/
def reconcile (displayedText newText : String) : ReconciliationResult :=
  if newText ≠ displayedText then
    if pyStartswith newText displayedText then
      { deleteCount := 0, insertText := pyDrop newText (pyLen displayedText) }
    else
      { deleteCount := pyLen displayedText, insertText := newText }
  else
    { deleteCount := 0, insertText := "" }

/-- Modelled from the spec: the three branch reference definition of
reconcile given in section 4.1, branch order as written there: equality
first, then the literal prefix fast path, then full replace. -/
def reconcileSpec (displayedText newText : String) : ReconciliationResult :=
  if newText = displayedText then
    { deleteCount := 0, insertText := "" }
  else if pyStartswith newText displayedText then
    { deleteCount := 0, insertText := pyDrop newText (pyLen displayedText) }
  else
    { deleteCount := pyLen displayedText, insertText := newText }

/-- Apply a reconciliation edit to currently displayed text: delete the
trailing deleteCount code points, then append the insert text. -/
def applyEdit (displayed : String) (r : ReconciliationResult) : String :=
  pyDropRight displayed r.deleteCount ++ r.insertText

/-- The output mode selected on the command line ('streaming' or 'batch'). -/
inductive Mode where
  | streaming
  | batch
deriving DecidableEq, Repr

/-- Actions the handlers emit toward the output sink: a simulated typing of a
string, a single backspace press and release pair, or a clipboard paste of a
whole string (the paste_text call of batch mode). Console prints are not
output sink actions and are not modelled. -/
inductive OutputAction where
  | typeText (s : String)
  | backspace
  | pasteText (s : String)
deriving DecidableEq, Repr

/-- Sound file path played when recording starts. -/
def SOUND_START : String := "/System/Library/Sounds/Hero.aiff"

/-- Sound file path played when recording stops. -/
def SOUND_STOP : String := "/System/Library/Sounds/Glass.aiff"

/-- The mutable state of DictationApp relevant to session control and
reconciliation: is_recording, audio_stream, connection, last_partial_text,
session_id and the output mode. Handles for the audio stream and the
connection are modelled as numeric identifiers; the code stores the objects
themselves. The audio queue, the vendor client and the keyboard controller
hold no session state and are not modelled. -/
structure AppState where
  isRecording : Bool
  audioStream : Option Nat
  connection : Option Nat
  lastPartialText : String
  sessionId : Nat
  mode : Mode
deriving DecidableEq, Repr

/-- The state DictationApp.__init__ establishes: not recording, no audio
stream, no connection, empty last partial text, session_id zero. -/
def initState (mode : Mode) : AppState :=
  { isRecording := false
    audioStream := none
    connection := none
    lastPartialText := ""
    sessionId := 0
    mode := mode }

/-- on_partial_transcript (dictation.py lines 265 to 296). Strips the incoming
text; returns unchanged on empty text. In streaming mode, when the new text
differs from the last partial it either types only the appended suffix (when
the new text starts with the last partial) or backspaces over the whole last
partial and types the new text, then stores the new text as the last partial.
In batch mode it only stores the new text. -/
def onPartialTranscript (st : AppState) (text : String) : AppState × List OutputAction :=
  let newText := pyStrip text
  if newText = "" then (st, [])
  else if st.mode = Mode.streaming then
    if newText ≠ st.lastPartialText then
      if pyStartswith newText st.lastPartialText then
        let newChars := pyDrop newText (pyLen st.lastPartialText)
        ({ st with lastPartialText := newText },
          if newChars ≠ "" then [OutputAction.typeText newChars] else [])
      else
        ({ st with lastPartialText := newText },
          (if st.lastPartialText ≠ "" then
            List.replicate (pyLen st.lastPartialText) OutputAction.backspace
          else []) ++ [OutputAction.typeText newText])
    else (st, [])
  else
    ({ st with lastPartialText := newText }, [])

/-- on_committed_transcript (dictation.py lines 298 to 321). Strips the final
text; does nothing on empty text. In streaming mode: when the last partial is
nonempty and differs from the final text, backspaces over the last partial and
types the final text; when the last partial is empty, just types the final
text; when the final text equals the nonempty last partial, emits nothing.
In batch mode: pastes the final text via the clipboard. In every nonempty
case the last partial text is then reset to empty. -/
def onCommittedTranscript (st : AppState) (text : String) : AppState × List OutputAction :=
  let finalText := pyStrip text
  if finalText ≠ "" then
    if st.mode = Mode.streaming then
      if st.lastPartialText ≠ "" ∧ finalText ≠ st.lastPartialText then
        ({ st with lastPartialText := "" },
          List.replicate (pyLen st.lastPartialText) OutputAction.backspace
            ++ [OutputAction.typeText finalText])
      else if st.lastPartialText = "" then
        ({ st with lastPartialText := "" }, [OutputAction.typeText finalText])
      else
        ({ st with lastPartialText := "" }, [])
    else
      ({ st with lastPartialText := "" }, [OutputAction.pasteText finalText])
  else (st, [])

/-- Side effects of the session controller on its collaborators: sound
playback, one channel connect attempt, closing a connection handle, one audio
feed open attempt, starting the opened audio stream, creating the audio
sender task, and scheduling the background cleanup task with the captured
audio and connection handles. -/
inductive Effect where
  | playSound (path : String)
  | channelConnect
  | closeConnection (h : Nat)
  | audioOpen
  | audioStartStream
  | createSendTask
  | scheduleCleanup (audio : Option Nat) (conn : Option Nat)
  | audioStopStream (h : Nat)
  | audioClose (h : Nat)
  | sleepMs (n : Nat)
  | commitConnection (h : Nat)
deriving DecidableEq, Repr

/-- start_recording (dictation.py lines 114 to 177). Returns immediately when
already recording. Otherwise sets is_recording, clears the last partial text,
increments session_id (the local capture current_session of the code is never
read afterwards), plays the start sound and attempts the channel connect; on
connect failure is_recording is reset and the attempt aborts. On success the
connection is stored, then the audio open is attempted; on audio failure the
stored connection, when present, is closed and is_recording is reset (the
stale connection and audio stream references are left as they are, as in the
code). On full success the audio stream handle is stored, the stream started
and the sender task created. The two environment outcomes (connect success,
audio open success) are passed as booleans; fresh handles are identified with
the new session id. -/
def startRecording (st : AppState) (connectOk audioOk : Bool) : AppState × List Effect :=
  if st.isRecording then (st, [])
  else
    let st1 := { st with
      isRecording := true
      lastPartialText := ""
      sessionId := st.sessionId + 1 }
    if connectOk then
      let st2 := { st1 with connection := some st1.sessionId }
      if audioOk then
        ({ st2 with audioStream := some st1.sessionId },
          [Effect.playSound SOUND_START, Effect.channelConnect, Effect.audioOpen,
            Effect.audioStartStream, Effect.createSendTask])
      else
        match st2.connection with
        | some c =>
            ({ st2 with isRecording := false },
              [Effect.playSound SOUND_START, Effect.channelConnect, Effect.audioOpen,
                Effect.closeConnection c])
        | none =>
            ({ st2 with isRecording := false },
              [Effect.playSound SOUND_START, Effect.channelConnect, Effect.audioOpen])
    else
      ({ st1 with isRecording := false },
        [Effect.playSound SOUND_START, Effect.channelConnect])

/-- stop_recording (dictation.py lines 204 to 226). Returns immediately when
not recording. Otherwise synchronously clears is_recording, plays the stop
sound, captures the current audio stream and connection handles, clears both
references and schedules the background cleanup task on the captured
handles. -/
def stopRecording (st : AppState) : AppState × List Effect :=
  if st.isRecording = false then (st, [])
  else
    let oldAudioStream := st.audioStream
    let oldConnection := st.connection
    ({ st with
        isRecording := false
        audioStream := none
        connection := none },
      [Effect.playSound SOUND_STOP, Effect.scheduleCleanup oldAudioStream oldConnection])

/-- The background cleanup task _cleanup_session (dictation.py lines 228 to
251). Its body touches only the captured audio stream and connection handles
passed as parameters plus console prints: it stops and closes the audio
stream when present, sleeps 200 ms, then commits, sleeps 500 ms and closes
the connection when present. It never reads or writes the app state, which
therefore passes through unchanged. -/
def cleanupSession (st : AppState) (audio conn : Option Nat) : AppState × List Effect :=
  (st,
    (match audio with
      | some h => [Effect.audioStopStream h, Effect.audioClose h]
      | none => [])
    ++ [Effect.sleepMs 200]
    ++ (match conn with
      | some h => [Effect.commitConnection h, Effect.sleepMs 500, Effect.closeConnection h]
      | none => []))

/-- Kinds of events a transcription connection delivers, mirroring the
RealtimeEvents the code registers handlers for (dictation.py lines 144 to
148). -/
inductive TKind where
  | SessionStarted
  | PartialTranscript
  | CommittedTranscript
  | ErrorEvent
  | Close
deriving DecidableEq, Repr

/-- An event as delivered by a transcription connection. The origin field
records which connection handle delivered it; the text field carries the
transcript for the two transcript kinds. -/
structure TranscriptEvent where
  kind : TKind
  text : String
  origin : Nat
deriving DecidableEq, Repr

/-- Delivery of a connection event to the app. The code registers the same
bound methods of the single app object on every connection it creates
(dictation.py lines 144 to 148), and none of the handlers inspects which
connection or session the event belongs to, so dispatch applies the handler
for the event kind to the current app state regardless of the event origin.
SessionStarted, ErrorEvent and Close handlers only print. -/
def deliverEvent (st : AppState) (ev : TranscriptEvent) : AppState × List OutputAction :=
  match ev.kind with
  | TKind.SessionStarted => (st, [])
  | TKind.PartialTranscript => onPartialTranscript st ev.text
  | TKind.CommittedTranscript => onCommittedTranscript st ev.text
  | TKind.ErrorEvent => (st, [])
  | TKind.Close => (st, [])

/-- Keys pressed by paste_text. -/
inductive PKey where
  | cmd
  | v
deriving DecidableEq, Repr

/-- Operations performed against the clipboard and keyboard by paste_text. -/
inductive SinkOp where
  | readClipboard
  | setClipboard (s : String)
  | keyPress (k : PKey)
  | keyRelease (k : PKey)
  | sleepMs (n : Nat)
deriving DecidableEq, Repr

/-- The operation sequence of the non raising path of paste_text
(dictation.py lines 55 to 76): read and save the current clipboard, copy the
text to the clipboard, press and release Cmd+V, sleep 50 ms, then copy the
saved old clipboard back. -/
def pasteTextOps (text clip : String) : List SinkOp :=
  let oldClipboard := clip
  [SinkOp.readClipboard, SinkOp.setClipboard text,
    SinkOp.keyPress PKey.cmd, SinkOp.keyPress PKey.v,
    SinkOp.keyRelease PKey.v, SinkOp.keyRelease PKey.cmd,
    SinkOp.sleepMs 50, SinkOp.setClipboard oldClipboard]

/-- Effect of a sink operation sequence on the clipboard contents. -/
def applyClipOps : List SinkOp → String → String
  | [], c => c
  | SinkOp.setClipboard s :: rest, _ => applyClipOps rest s
  | _ :: rest, c => applyClipOps rest c

theorem str_ext {s t : String} (h : s.data = t.data) : s = t := by
  cases s
  cases t
  cases h
  rfl

theorem data_append (s t : String) : (s ++ t).data = s.data ++ t.data := rfl

theorem data_empty : ("" : String).data = [] := rfl

example : reconcile "hel" "hello" = { deleteCount := 0, insertText := "lo" } := by decide

example : reconcile "I want to" "I want two" =
    { deleteCount := 9, insertText := "I want two" } := by decide

/-- Claim C3: for every pair of strings (a, b), applying the
ReconciliationResult returned by reconcile(a, b) to a, that is deleting
deleteCount trailing characters of a and appending insertText, yields
exactly b. -/
theorem C3_reconcile_roundtrip (a b : String) : applyEdit a (reconcile a b) = b := by
  by_cases heq : b = a
  · subst heq
    apply str_ext
    simp [reconcile, applyEdit, pyDropRight, data_append, data_empty]
  · by_cases hp : pyStartswith b a
    · have hp2 : a.data.isPrefixOf b.data := hp
      obtain ⟨t, ht⟩ := List.isPrefixOf_iff_prefix.mp hp2
      apply str_ext
      simp only [reconcile, applyEdit, if_neg, heq, hp, ne_eq, not_false_iff, if_true,
        if_pos, pyDropRight, pyDrop, pyLen, data_append]
      rw [← ht]
      simp [List.take_length, List.drop_left]
    · apply str_ext
      simp [reconcile, applyEdit, heq, hp, pyDropRight, pyLen, data_append]

/-- Claim C4: reconcile agrees everywhere with the three branch reference
definition of the spec: no-op on equality, suffix insertion when the new text
starts with the displayed text, and full replace otherwise. -/
theorem C4_reconcile_matches_spec (displayedText newText : String) :
    reconcile displayedText newText = reconcileSpec displayedText newText := by
  by_cases heq : newText = displayedText
  · simp [reconcile, reconcileSpec, heq]
  · by_cases hp : pyStartswith newText displayedText
    · simp [reconcile, reconcileSpec, heq, hp]
    · simp [reconcile, reconcileSpec, heq, hp]

/-- The streaming branch of on_partial_transcript implements reconcile: on
nonempty stripped text it stores the new text as the last partial and emits
the backspaces and typing dictated by the reconcile edit. -/
theorem onPartial_streaming_implements_reconcile (st : AppState) (text : String)
    (hm : st.mode = Mode.streaming) (hne : pyStrip text ≠ "") :
    onPartialTranscript st text
      = ({ st with lastPartialText := pyStrip text },
          List.replicate (reconcile st.lastPartialText (pyStrip text)).deleteCount
              OutputAction.backspace
            ++ (if (reconcile st.lastPartialText (pyStrip text)).insertText = "" then []
              else [OutputAction.typeText
                (reconcile st.lastPartialText (pyStrip text)).insertText])) := by
  by_cases heq : pyStrip text = st.lastPartialText
  · simp only [onPartialTranscript, reconcile, hm, hne, heq, if_neg, if_pos, ne_eq,
      not_true_eq_false, if_false, ite_false, ite_true, not_false_iff, List.replicate,
      List.nil_append]
    cases st
    simp [heq] at heq ⊢
    simp_all
  · by_cases hp : pyStartswith (pyStrip text) st.lastPartialText
    · by_cases hchars : pyDrop (pyStrip text) (pyLen st.lastPartialText) = ""
      · simp [onPartialTranscript, reconcile, hm, hne, heq, hp, hchars]
      · simp [onPartialTranscript, reconcile, hm, hne, heq, hp, hchars]
    · by_cases hlast : st.lastPartialText = ""
      · exfalso
        rw [hlast] at hp
        exact hp (show pyStartswith (pyStrip text) "" = true by simp [pyStartswith])
      · simp [onPartialTranscript, reconcile, hm, hne, heq, hp, hlast]

/-- Claim C6: an incoming Partial transcript event with empty text produces
no edit and leaves the stored last partial text, and all other state,
unchanged, in both modes. -/
theorem C6_empty_partial_ignored (st : AppState) : onPartialTranscript st "" = (st, []) := rfl

/-- Claim C5: in batch mode every Partial event produces no output action,
and a Committed event whose stripped text is nonempty produces exactly one
output action, a clipboard paste of that final text. -/
theorem C5_batch_mode_actions (st : AppState) (textP textC : String)
    (hm : st.mode = Mode.batch) (hc : pyStrip textC ≠ "") :
    (onPartialTranscript st textP).2 = [] ∧
    (onCommittedTranscript st textC).2 = [OutputAction.pasteText (pyStrip textC)] := by
  constructor
  · by_cases h : pyStrip textP = ""
    · simp [onPartialTranscript, h]
    · simp [onPartialTranscript, h, hm]
  · simp [onCommittedTranscript, hm, hc]

/-- Witness for claim C5 at a concrete batch state and concrete texts. -/
theorem C5_batch_mode_actions_witness :
    ((initState Mode.batch).mode = Mode.batch ∧ pyStrip "hello" ≠ "") ∧
    ((onPartialTranscript (initState Mode.batch) "hi").2 = [] ∧
      (onCommittedTranscript (initState Mode.batch) "hello").2
        = [OutputAction.pasteText (pyStrip "hello")]) :=
  ⟨⟨by decide, by decide⟩,
    C5_batch_mode_actions (initState Mode.batch) "hi" "hello" (by decide) (by decide)⟩

/-- Claim C2 counterexample: in streaming mode with last partial text hello, a
Committed event carrying the equal text hello emits no output action at all,
not the full reconcile of five backspaces and a retype that the claim
requires in the equal case. -/
theorem C2_committed_equal_counterexample :
    (onCommittedTranscript { initState Mode.streaming with lastPartialText := "hello" }
        "hello").2 = [] ∧
    ([] : List OutputAction)
      ≠ List.replicate (pyLen "hello") OutputAction.backspace
          ++ [OutputAction.typeText "hello"] := by
  constructor
  · decide
  · decide

/-- Claim C2 as amended: in streaming mode a Committed event with nonempty
stripped text resets the last partial text to empty, and it forces a full
reconcile (backspace over everything displayed, type the final text) exactly
when the displayed last partial is nonempty and differs from the final text;
when the displayed last partial is empty the final text is typed with no
deletion, and when the final text equals the nonempty last partial no edit is
emitted. -/
theorem C2_committed_reconcile_amended (st : AppState) (text : String)
    (hm : st.mode = Mode.streaming) (hc : pyStrip text ≠ "") :
    (onCommittedTranscript st text).1.lastPartialText = "" ∧
    (st.lastPartialText ≠ "" → pyStrip text ≠ st.lastPartialText →
      (onCommittedTranscript st text).2
        = List.replicate (pyLen st.lastPartialText) OutputAction.backspace
            ++ [OutputAction.typeText (pyStrip text)]) ∧
    (st.lastPartialText = "" →
      (onCommittedTranscript st text).2 = [OutputAction.typeText (pyStrip text)]) ∧
    (pyStrip text = st.lastPartialText →
      (onCommittedTranscript st text).2 = []) := by
  refine ⟨?_, ?_, ?_, ?_⟩
  · by_cases h1 : st.lastPartialText ≠ "" ∧ pyStrip text ≠ st.lastPartialText
    · simp [onCommittedTranscript, hm, hc, h1]
    · by_cases h2 : st.lastPartialText = ""
      · simp [onCommittedTranscript, hm, hc, h1, h2]
      · by_cases h3 : pyStrip text = st.lastPartialText
        · simp [onCommittedTranscript, hm, hc, h1, h2, h3]
        · simp [onCommittedTranscript, hm, hc, h1, h2, h3]
  · intro h1 h2
    simp [onCommittedTranscript, hm, hc, h1, h2]
  · intro h1
    simp [onCommittedTranscript, hm, hc, h1]
  · intro h1
    have hl : st.lastPartialText ≠ "" := by
      rw [← h1]
      exact hc
    simp [onCommittedTranscript, hm, hc, h1, hl]

/-- Witness for the amended claim C2 at a concrete streaming state. -/
theorem C2_committed_reconcile_amended_witness :
    (({ initState Mode.streaming with lastPartialText := "hi" } : AppState).mode
        = Mode.streaming ∧ pyStrip "hello." ≠ "") ∧
    ((onCommittedTranscript { initState Mode.streaming with lastPartialText := "hi" }
        "hello.").1.lastPartialText = "" ∧
      (({ initState Mode.streaming with lastPartialText := "hi" } : AppState).lastPartialText
          ≠ "" →
        pyStrip "hello."
            ≠ ({ initState Mode.streaming with lastPartialText := "hi" } : AppState).lastPartialText →
        (onCommittedTranscript { initState Mode.streaming with lastPartialText := "hi" }
            "hello.").2
          = List.replicate
              (pyLen ({ initState Mode.streaming with lastPartialText := "hi" } : AppState).lastPartialText)
              OutputAction.backspace
              ++ [OutputAction.typeText (pyStrip "hello.")]) ∧
      (({ initState Mode.streaming with lastPartialText := "hi" } : AppState).lastPartialText
          = "" →
        (onCommittedTranscript { initState Mode.streaming with lastPartialText := "hi" }
            "hello.").2 = [OutputAction.typeText (pyStrip "hello.")]) ∧
      (pyStrip "hello."
          = ({ initState Mode.streaming with lastPartialText := "hi" } : AppState).lastPartialText →
        (onCommittedTranscript { initState Mode.streaming with lastPartialText := "hi" }
            "hello.").2 = [])) :=
  ⟨⟨by decide, by decide⟩,
    C2_committed_reconcile_amended
      { initState Mode.streaming with lastPartialText := "hi" } "hello."
      (by decide) (by decide)⟩

/-- Claim C7: when no session is recording, a start followed by a second
start without an intervening stop leaves the second call a complete no-op,
and the two calls together perform exactly one channel connect and exactly
one audio feed open. -/
theorem C7_double_start_single_connect (st : AppState) (h : st.isRecording = false) :
    (startRecording (startRecording st true true).1 true true)
        = ((startRecording st true true).1, []) ∧
    ((startRecording st true true).2
        ++ (startRecording (startRecording st true true).1 true true).2).count
        Effect.channelConnect = 1 ∧
    ((startRecording st true true).2
        ++ (startRecording (startRecording st true true).1 true true).2).count
        Effect.audioOpen = 1 := by
  refine ⟨?_, ?_, ?_⟩
  · simp [startRecording, h]
  · simp [startRecording, h, List.count_cons, List.count_nil]
  · simp [startRecording, h, List.count_cons, List.count_nil]

/-- Witness for claim C7 at the initial state. -/
theorem C7_double_start_single_connect_witness :
    (initState Mode.streaming).isRecording = false ∧
    ((startRecording (startRecording (initState Mode.streaming) true true).1 true true)
        = ((startRecording (initState Mode.streaming) true true).1, []) ∧
      ((startRecording (initState Mode.streaming) true true).2
          ++ (startRecording (startRecording (initState Mode.streaming) true true).1
              true true).2).count Effect.channelConnect = 1 ∧
      ((startRecording (initState Mode.streaming) true true).2
          ++ (startRecording (startRecording (initState Mode.streaming) true true).1
              true true).2).count Effect.audioOpen = 1) :=
  ⟨by decide, C7_double_start_single_connect (initState Mode.streaming) (by decide)⟩

/-- Claim C8: stop_recording while no session is recording is a complete
no-op with no effects, and after stopping a recording session (the session is
then draining) a repeated stop_recording is again a complete no-op leaving
all controller state unchanged. -/
theorem C8_stop_noop_idempotent (st st2 : AppState)
    (h : st.isRecording = false) (h2 : st2.isRecording = true) :
    stopRecording st = (st, []) ∧
    stopRecording (stopRecording st2).1 = ((stopRecording st2).1, []) := by
  constructor
  · simp [stopRecording, h]
  · simp [stopRecording, h2]

/-- Witness for claim C8 at concrete idle and recording states. -/
theorem C8_stop_noop_idempotent_witness :
    ((initState Mode.batch).isRecording = false ∧
      ({ initState Mode.batch with isRecording := true } : AppState).isRecording = true) ∧
    (stopRecording (initState Mode.batch) = (initState Mode.batch, []) ∧
      stopRecording (stopRecording { initState Mode.batch with isRecording := true }).1
        = ((stopRecording { initState Mode.batch with isRecording := true }).1, [])) :=
  ⟨⟨by decide, by decide⟩,
    C8_stop_noop_idempotent (initState Mode.batch)
      { initState Mode.batch with isRecording := true } (by decide) (by decide)⟩

/-- Claim C9: when the channel connect succeeds and the audio open then
fails, the start attempt closes the just opened channel, emits exactly the
sound, connect, audio open attempt and channel close effects, and leaves the
controller not recording, from where a subsequent start succeeds. -/
theorem C9_audio_fail_aborts (st : AppState) (h : st.isRecording = false) :
    ((startRecording st true false).1.isRecording = false ∧
      (startRecording st true false).2
        = [Effect.playSound SOUND_START, Effect.channelConnect, Effect.audioOpen,
            Effect.closeConnection (st.sessionId + 1)]) ∧
    (startRecording (startRecording st true false).1 true true).1.isRecording = true := by
  refine ⟨⟨?_, ?_⟩, ?_⟩
  · simp [startRecording, h]
  · simp [startRecording, h]
  · simp [startRecording, h]

/-- Witness for claim C9 at the initial state. -/
theorem C9_audio_fail_aborts_witness :
    (initState Mode.streaming).isRecording = false ∧
    (((startRecording (initState Mode.streaming) true false).1.isRecording = false ∧
      (startRecording (initState Mode.streaming) true false).2
        = [Effect.playSound SOUND_START, Effect.channelConnect, Effect.audioOpen,
            Effect.closeConnection ((initState Mode.streaming).sessionId + 1)]) ∧
      (startRecording (startRecording (initState Mode.streaming) true false).1
          true true).1.isRecording = true) :=
  ⟨by decide, C9_audio_fail_aborts (initState Mode.streaming) (by decide)⟩

/-- Claim C1 counterexample: a full concrete trace. Session one starts and
displays hello; stop_recording schedules cleanup on the captured handles of
connection one; session two starts (a distinct session identifier, with
connection two) and displays hi; then a late Committed event delivered by the
old connection one is processed by the shared handlers and rewrites the new
session displayed text: the stored last partial changes from hi to empty and
backspaces plus a retype of the old final text are emitted. This contradicts
the claim that late arriving events of the old session never alter the new
session displayedText. -/
theorem C1_late_event_counterexample :
    (stopRecording
        (onPartialTranscript (startRecording (initState Mode.streaming) true true).1
          "hello").1).2
      = [Effect.playSound SOUND_STOP, Effect.scheduleCleanup (some 1) (some 1)] ∧
    (startRecording
        (stopRecording
          (onPartialTranscript (startRecording (initState Mode.streaming) true true).1
            "hello").1).1 true true).1.sessionId = 2 ∧
    (startRecording
        (stopRecording
          (onPartialTranscript (startRecording (initState Mode.streaming) true true).1
            "hello").1).1 true true).1.connection = some 2 ∧
    (onPartialTranscript
        (startRecording
          (stopRecording
            (onPartialTranscript (startRecording (initState Mode.streaming) true true).1
              "hello").1).1 true true).1 "hi").1.lastPartialText = "hi" ∧
    (deliverEvent
        (onPartialTranscript
          (startRecording
            (stopRecording
              (onPartialTranscript (startRecording (initState Mode.streaming) true true).1
                "hello").1).1 true true).1 "hi").1
        { kind := TKind.CommittedTranscript, text := "hello.", origin := 1 }).1.lastPartialText
      = "" ∧
    (deliverEvent
        (onPartialTranscript
          (startRecording
            (stopRecording
              (onPartialTranscript (startRecording (initState Mode.streaming) true true).1
                "hello").1).1 true true).1 "hi").1
        { kind := TKind.CommittedTranscript, text := "hello.", origin := 1 }).2
      = [OutputAction.backspace, OutputAction.backspace, OutputAction.typeText "hello."] := by
  decide

/-- Claim C1 as amended: starting immediately after stopping a recording
session succeeds and yields a new, distinct session identifier, and the old
session late teardown (the background cleanup task, which only operates on
its captured handles) never alters the new session state, in particular its
displayed last partial text; late arriving transcript events of the old
connection, however, are processed by the shared handlers and can alter it. -/
theorem C1_restart_amended (st : AppState) (h : st.isRecording = true) :
    ((startRecording (stopRecording st).1 true true).1.isRecording = true ∧
      (startRecording (stopRecording st).1 true true).1.sessionId = st.sessionId + 1 ∧
      (startRecording (stopRecording st).1 true true).1.sessionId ≠ st.sessionId) ∧
    (∀ a c, (cleanupSession (startRecording (stopRecording st).1 true true).1 a c).1
        = (startRecording (stopRecording st).1 true true).1) := by
  refine ⟨⟨?_, ?_, ?_⟩, ?_⟩
  · simp [startRecording, stopRecording, h]
  · simp [startRecording, stopRecording, h]
  · simp [startRecording, stopRecording, h]
  · intro a c
    rfl

/-- Witness for the amended claim C1 at a concrete recording state. -/
theorem C1_restart_amended_witness :
    ({ initState Mode.streaming with isRecording := true, sessionId := 1 } : AppState).isRecording
        = true ∧
    (((startRecording
        (stopRecording
          { initState Mode.streaming with isRecording := true, sessionId := 1 }).1
        true true).1.isRecording = true ∧
      (startRecording
        (stopRecording
          { initState Mode.streaming with isRecording := true, sessionId := 1 }).1
        true true).1.sessionId
        = ({ initState Mode.streaming with isRecording := true, sessionId := 1 } : AppState).sessionId
            + 1 ∧
      (startRecording
        (stopRecording
          { initState Mode.streaming with isRecording := true, sessionId := 1 }).1
        true true).1.sessionId
        ≠ ({ initState Mode.streaming with isRecording := true, sessionId := 1 } : AppState).sessionId) ∧
    (∀ a c,
      (cleanupSession
        (startRecording
          (stopRecording
            { initState Mode.streaming with isRecording := true, sessionId := 1 }).1
          true true).1 a c).1
        = (startRecording
            (stopRecording
              { initState Mode.streaming with isRecording := true, sessionId := 1 }).1
            true true).1)) :=
  ⟨by decide,
    C1_restart_amended { initState Mode.streaming with isRecording := true, sessionId := 1 }
      (by decide)⟩

/-- Claim C10: on the non raising path of paste_text, the clipboard contents
after the whole operation sequence equal the clipboard contents before it:
the old clipboard is saved first and copied back last. -/
theorem C10_paste_restores_clipboard (text clip : String) :
    applyClipOps (pasteTextOps text clip) clip = clip := rfl
